import Mathlib

/-!
Verification of the EDA dashboard (`src/main_app.py`) against its
natural-language specification.

The file shallowly embeds the logical core of the application:

* the column-type classification of lines 47-49 (`numeric_columns`,
  `categorical_columns`; the code computes no temporal bucket),
* the global categorical filter of lines 56-63 (`applyFilter`),
* the univariate frequency counting of line 106 (`value_counts`),
* the bivariate chart decision of lines 141-156 (`selectChart`),
* the correlation-tab guard of lines 161-168 (`correlationView`),
* and, modelled from the spec because the energy-specific variant is not
  part of the source tree, the required-column load check (`load_energy`).

Pandas dtypes are modelled by the inductive `Dtype`; a dataframe, where row
contents matter, is a list of rows of `Cell`s, where `Cell.null` stands for
a missing value (NaN).
-/

namespace EdaPro

/-- The pandas dtypes a loaded table's columns can carry: the spec's data
model admits numeric, text, boolean and date scalars, which pandas stores as
`float64`, `int64`, `object` (text), `category`, `bool` and `datetime64`. -/
inductive Dtype
  | float64
  | int64
  | object
  | category
  | bool
  | datetime64
deriving DecidableEq

/-- A column of a loaded table: its name and its pandas dtype. -/
structure Col where
  name : String
  dtype : Dtype
deriving DecidableEq

/-- Line 48: `numeric_columns = df.select_dtypes(include=['float64', 'int64']).columns.tolist()`. -/
def numeric_columns (cols : List Col) : List String :=
  (cols.filter (fun c => c.dtype == Dtype.float64 || c.dtype == Dtype.int64)).map Col.name

/-- Line 49: `categorical_columns = df.select_dtypes(include=['object', 'category', 'bool']).columns.tolist()`. -/
def categorical_columns (cols : List Col) : List String :=
  (cols.filter (fun c =>
    c.dtype == Dtype.object || c.dtype == Dtype.category || c.dtype == Dtype.bool)).map Col.name

/-- The Temporal bucket of the classification: lines 47-49 compute only the
numeric and the categorical bucket, so no column is ever assigned to a
Temporal class. -/
def temporal_columns (_cols : List Col) : List String := []

/-- A scalar cell of the table; `null` models a missing value (NaN). -/
inductive Cell
  | null
  | str (s : String)
  | num (x : Int)
  | boolean (b : Bool)
deriving DecidableEq

/-- A row of the table, as the list of its cells in column order. -/
abbrev Row := List Cell

/-- The value a row carries in column `i` (missing positions read as null). -/
def cellAt (r : Row) (i : Nat) : Cell := r.getD i Cell.null

/-- The column `i` of a dataframe, as the list of its cells: `df[filter_col]`. -/
def colValues (df : List Row) (i : Nat) : List Cell := df.map (fun r => cellAt r i)

/-- First-occurrence deduplication with an accumulator of already-seen
values; `uniqueAux [] l` is pandas `Series.unique()` on `l` (order of first
appearance, nulls kept). -/
def uniqueAux {α : Type} [DecidableEq α] (seen : List α) : List α → List α
  | [] => []
  | x :: xs => if x ∈ seen then uniqueAux seen xs else x :: uniqueAux (x :: seen) xs

/-- Pandas `Series.unique()`: the distinct values of a list in order of first
appearance (line 59/60: `df[filter_col].unique()`). -/
def pandasUnique {α : Type} [DecidableEq α] (l : List α) : List α := uniqueAux [] l

/-- Lines 56-63, the global categorical filter. `filter_val` is the admissible
set chosen in the multiselect; the code runs
`df = df[df[filter_col].isin(filter_val)]` only under `if filter_val:`, so an
empty selection leaves the dataframe untouched. Pandas `isin` matches NaN
against a NaN listed in the values, so membership is plain cell equality. -/
def applyFilter (df : List Row) (i : Nat) (filter_val : List Cell) : List Row :=
  if filter_val.isEmpty then df
  else df.filter (fun r => filter_val.contains (cellAt r i))

/-- The non-null cells of a column (pandas `value_counts` drops NaN by default). -/
def dropNull (l : List Cell) : List Cell := l.filter (fun c => c != Cell.null)

/-- Line 106: `df[column_to_plot].value_counts()` — the (value, count) pairs of
the distinct non-null values of the column, sorted by count in descending
order as pandas does. -/
def value_counts (l : List Cell) : List (Cell × Nat) :=
  ((pandasUnique (dropNull l)).map (fun v => (v, (dropNull l).count v))).mergeSort
    (fun a b => Nat.ble b.2 a.2)

/-- The chart specification produced by the bivariate tab (lines 141-156):
either a scatter, a box plot (with its x field, y field and whether the
`orient='h'` flag was passed), or no chart at all together with the warning
message shown instead. -/
inductive ChartSpec
  | scatter (x y : String)
  | box (x y : String) (horizontal : Bool)
  | noChart (msg : String)
deriving DecidableEq

/-- The warning of line 156, shown when neither axis is numeric. -/
def xyWarnMsg : String :=
  "Selecciona al menos una variable numérica para gráficos XY estándar, o usa el análisis univariable."

/-- Lines 141-156: the chart decision of the bivariate tab. Both axes numeric
gives a scatter; a categorical/numeric mix gives a box plot, with the axes
swapped and `orient='h'` when the categorical column was chosen for y
(line 152: `px.box(df, x=y_axis, y=x_axis, orient='h')`); anything else
renders no chart and shows a warning. -/
def selectChart (numeric categorical : List String) (x y : String) : ChartSpec :=
  if x ∈ numeric ∧ y ∈ numeric then ChartSpec.scatter x y
  else if (x ∈ categorical ∧ y ∈ numeric) ∨ (x ∈ numeric ∧ y ∈ categorical) then
    if x ∈ categorical then ChartSpec.box x y false
    else ChartSpec.box y x true
  else ChartSpec.noChart xyWarnMsg

/-- Whether the bivariate tab actually renders a chart for this outcome. -/
def rendersChart : ChartSpec → Bool
  | ChartSpec.noChart _ => false
  | _ => true

/-- The outcome of the correlation tab: either a heatmap over the listed
numeric columns (their pairwise correlation is delegated to
`df[numeric_columns].corr()`), or the informational message. -/
inductive CorrView
  | heatmap (cols : List String)
  | insufficient (msg : String)
deriving DecidableEq

/-- The message of line 168. -/
def corrInfoMsg : String :=
  "Se necesitan al menos 2 columnas numéricas para calcular correlaciones."

/-- Lines 161-168: the correlation tab computes the correlation heatmap only
when more than one numeric column exists, and otherwise shows an
informational message. -/
def correlationView (numeric : List String) : CorrView :=
  if numeric.length > 1 then CorrView.heatmap numeric
  else CorrView.insufficient corrInfoMsg

/-- The columns the energy-specific schema requires at minimum (spec §6). -/
def required_energy_columns : List String :=
  ["Tecnologia", "Estado_Actual", "Capacidad_Instalada_MW", "Operador"]

/-- The outcome of loading a file in the energy-specific variant: either the
table is accepted, or a load error listing the missing required columns. -/
inductive LoadResult
  | ok (cols : List String)
  | loadError (missing : List String)
deriving DecidableEq

/-- Modelled from the spec: the energy-specific variant's load-time check is
not part of the source tree (only the generic variant `load_data` of lines
18-30 is, and it checks no columns). Spec §6 requires that "absence of any
required column is a load-time error listing the missing names", and §7 that
processing halts for that upload, so no dashboard is rendered. -/
def load_energy (cols : List String) : LoadResult :=
  let missing := required_energy_columns.filter (fun c => !(cols.contains c))
  if missing.isEmpty then LoadResult.ok cols else LoadResult.loadError missing

/-- Whether a dashboard is rendered for a load outcome: on a load error the
app reports the error and halts (spec §7; the generic variant's `st.stop()`
at line 42 behaves the same way). -/
def dashboard_rendered : LoadResult → Bool
  | LoadResult.ok _ => true
  | LoadResult.loadError _ => false

/- ------------------------------------------------------------------ -/
/- Helper lemmas                                                      -/
/- ------------------------------------------------------------------ -/

theorem mem_uniqueAux {α : Type} [DecidableEq α] (a : α) (l : List α) :
    ∀ seen : List α, a ∈ uniqueAux seen l ↔ a ∈ l ∧ a ∉ seen := by
  induction l with
  | nil => intro seen; simp [uniqueAux]
  | cons x xs ih =>
    intro seen
    by_cases hx : x ∈ seen
    · rw [uniqueAux, if_pos hx, ih]
      constructor
      · rintro ⟨hmem, hns⟩
        exact ⟨List.mem_cons_of_mem x hmem, hns⟩
      · rintro ⟨hmem, hns⟩
        rcases List.mem_cons.mp hmem with rfl | hmem
        · exact absurd hx hns
        · exact ⟨hmem, hns⟩
    · rw [uniqueAux, if_neg hx]
      by_cases hax : a = x
      · subst hax
        simp [hx]
      · simp [List.mem_cons, hax, ih (x :: seen)]

theorem mem_pandasUnique {α : Type} [DecidableEq α] (a : α) (l : List α) :
    a ∈ pandasUnique l ↔ a ∈ l := by
  rw [pandasUnique, mem_uniqueAux]
  simp

theorem nodup_uniqueAux {α : Type} [DecidableEq α] (l : List α) :
    ∀ seen : List α, (uniqueAux seen l).Nodup := by
  induction l with
  | nil => intro seen; simp [uniqueAux]
  | cons x xs ih =>
    intro seen
    by_cases hx : x ∈ seen
    · rw [uniqueAux, if_pos hx]; exact ih seen
    · rw [uniqueAux, if_neg hx, List.nodup_cons]
      refine ⟨fun h => ?_, ih (x :: seen)⟩
      exact ((mem_uniqueAux x xs (x :: seen)).mp h).2 (List.mem_cons_self x seen)

theorem nodup_pandasUnique {α : Type} [DecidableEq α] (l : List α) :
    (pandasUnique l).Nodup := nodup_uniqueAux l []

theorem mem_numeric_columns_iff (cols : List Col) (n : String) :
    n ∈ numeric_columns cols ↔
      ∃ c, c ∈ cols ∧ c.name = n ∧ (c.dtype = Dtype.float64 ∨ c.dtype = Dtype.int64) := by
  simp only [numeric_columns, List.mem_map, List.mem_filter, Bool.or_eq_true, beq_iff_eq]
  constructor
  · rintro ⟨c, ⟨hmem, hdt⟩, hname⟩
    exact ⟨c, hmem, hname, hdt⟩
  · rintro ⟨c, hmem, hname, hdt⟩
    exact ⟨c, ⟨hmem, hdt⟩, hname⟩

theorem mem_categorical_columns_iff (cols : List Col) (n : String) :
    n ∈ categorical_columns cols ↔
      ∃ c, c ∈ cols ∧ c.name = n ∧
        (c.dtype = Dtype.object ∨ c.dtype = Dtype.category ∨ c.dtype = Dtype.bool) := by
  simp only [categorical_columns, List.mem_map, List.mem_filter, Bool.or_eq_true, beq_iff_eq,
    or_assoc]
  constructor
  · rintro ⟨c, ⟨hmem, hdt⟩, hname⟩
    exact ⟨c, hmem, hname, hdt⟩
  · rintro ⟨c, hmem, hname, hdt⟩
    exact ⟨c, ⟨hmem, hdt⟩, hname⟩

theorem numeric_not_categorical (cols : List Col)
    (hnd : (cols.map Col.name).Nodup) (n : String)
    (hn : n ∈ numeric_columns cols) : n ∉ categorical_columns cols := by
  intro hc
  obtain ⟨c, hcmem, hcname, hcdt⟩ := (mem_numeric_columns_iff cols n).mp hn
  obtain ⟨d, hdmem, hdname, hddt⟩ := (mem_categorical_columns_iff cols n).mp hc
  have heq : d = c := List.inj_on_of_nodup_map hnd hdmem hcmem (hdname.trans hcname.symm)
  subst heq
  rcases hcdt with h | h <;> rw [h] at hddt <;>
    rcases hddt with h2 | h2 | h2 <;> cases h2

/- ------------------------------------------------------------------ -/
/- Claim theorems                                                     -/
/- ------------------------------------------------------------------ -/

/-- C2 counterexample: the claim says a filter with an empty admissible set
returns the empty table (zero rows). On the one-row table `[["a"]]` with an
empty selection, the code returns the table unchanged: one row, not zero. -/
theorem C2_counterexample :
    (applyFilter [[Cell.str "a"]] 0 []).length = 1 ∧
      (applyFilter [[Cell.str "a"]] 0 []).length ≠ 0 := by
  decide

/-- C2 amended: when the admissible set of the active filter is empty, the
guard `if filter_val:` at line 62 skips the filter entirely, so the filter
application returns the source table unchanged (all rows); no warning is
produced and no zero-row table arises. -/
theorem C2_empty_filter_skipped (df : List Row) (i : Nat) :
    applyFilter df i [] = df := rfl

/-- C5: filtering with a non-empty admissible set is sound: the filtered
table has at most as many rows as the source, and every surviving row's
value in the filtered column is a member of the admissible set
(line 63: `df[df[filter_col].isin(filter_val)]`). -/
theorem C5_filter_sound (df : List Row) (i : Nat) (sel : List Cell)
    (hsel : sel ≠ []) :
    (applyFilter df i sel).length ≤ df.length ∧
      ∀ r ∈ applyFilter df i sel, cellAt r i ∈ sel := by
  have hne : ¬(sel.isEmpty = true) := by
    simp [List.isEmpty_iff, hsel]
  rw [applyFilter, if_neg hne]
  refine ⟨List.length_filter_le _ _, fun r hr => ?_⟩
  have hpred := List.of_mem_filter hr
  simpa using hpred

/-- Witness for C5 at a concrete table and selection. -/
theorem C5_filter_sound_witness :
    (applyFilter [[Cell.str "Solar"], [Cell.str "Eolica"]] 0 [Cell.str "Solar"]).length ≤
        ([[Cell.str "Solar"], [Cell.str "Eolica"]] : List Row).length ∧
      ∀ r ∈ applyFilter [[Cell.str "Solar"], [Cell.str "Eolica"]] 0 [Cell.str "Solar"],
        cellAt r 0 ∈ [Cell.str "Solar"] :=
  C5_filter_sound [[Cell.str "Solar"], [Cell.str "Eolica"]] 0 [Cell.str "Solar"] (by decide)

/-- C10: filtering with the default selection is the identity: with the
admissible set defaulted to `df[filter_col].unique()` (line 60), every row's
value in that column belongs to the set, so the filtered table equals the
source table, same rows in the same order. -/
theorem C10_default_filter_identity (df : List Row) (i : Nat) :
    applyFilter df i (pandasUnique (colValues df i)) = df := by
  cases df with
  | nil => rfl
  | cons r rs =>
    have hmem : cellAt r i ∈ pandasUnique (colValues (r :: rs) i) := by
      rw [mem_pandasUnique]
      exact List.mem_map_of_mem _ (List.mem_cons_self r rs)
    have hne : ¬((pandasUnique (colValues (r :: rs) i)).isEmpty = true) := by
      rw [List.isEmpty_iff]
      intro h
      rw [h] at hmem
      cases hmem
    rw [applyFilter, if_neg hne]
    apply List.filter_eq_self.mpr
    intro a ha
    have hmema : cellAt a i ∈ pandasUnique (colValues (r :: rs) i) := by
      rw [mem_pandasUnique]
      exact List.mem_map_of_mem _ ha
    simpa using hmema

/-- C7: if fewer than two numeric columns exist, the correlation tab does not
compute the correlation view and shows the informational message instead
(lines 161-168). -/
theorem C7_correlation_guard (cols : List Col)
    (h : (numeric_columns cols).length < 2) :
    correlationView (numeric_columns cols) = CorrView.insufficient corrInfoMsg := by
  rw [correlationView, if_neg (by omega)]

/-- Witness for C7: a table with exactly one numeric column. -/
theorem C7_correlation_guard_witness :
    correlationView (numeric_columns
        [⟨"Capacidad_Instalada_MW", Dtype.float64⟩, ⟨"Tecnologia", Dtype.object⟩]) =
      CorrView.insufficient corrInfoMsg :=
  C7_correlation_guard
    [⟨"Capacidad_Instalada_MW", Dtype.float64⟩, ⟨"Tecnologia", Dtype.object⟩] (by decide)

/-- C6 (modelled from the spec, the energy-specific variant is not in the
source tree): loading a file that lacks a required column yields a load
error whose missing-column list contains that column, and no dashboard is
rendered for the upload. -/
theorem C6_missing_required_column (cols : List String) (c : String)
    (hreq : c ∈ required_energy_columns) (hmiss : c ∉ cols) :
    (∃ m, load_energy cols = LoadResult.loadError m ∧ c ∈ m) ∧
      dashboard_rendered (load_energy cols) = false := by
  have hcmem : c ∈ required_energy_columns.filter (fun x => !(cols.contains x)) := by
    rw [List.mem_filter]
    refine ⟨hreq, ?_⟩
    simp [hmiss]
  have hne :
      ¬((required_energy_columns.filter (fun x => !(cols.contains x))).isEmpty = true) := by
    rw [List.isEmpty_iff]
    intro h
    rw [h] at hcmem
    cases hcmem
  have hload : load_energy cols =
      LoadResult.loadError (required_energy_columns.filter (fun x => !(cols.contains x))) := by
    simp only [load_energy]
    rw [if_neg hne]
  refine ⟨⟨_, hload, hcmem⟩, ?_⟩
  rw [hload]
  rfl

/-- Witness for C6: spec §8 Scenario E, a file missing `Operador`. -/
theorem C6_missing_required_column_witness :
    (∃ m, load_energy ["Tecnologia", "Estado_Actual", "Capacidad_Instalada_MW"] =
        LoadResult.loadError m ∧ "Operador" ∈ m) ∧
      dashboard_rendered (load_energy ["Tecnologia", "Estado_Actual", "Capacidad_Instalada_MW"]) =
        false :=
  C6_missing_required_column ["Tecnologia", "Estado_Actual", "Capacidad_Instalada_MW"]
    "Operador" (by decide) (by decide)

/-- C1 counterexample: classification is not total over the three buckets.
A column of datetime dtype (e.g. a date column loaded from a spreadsheet) is
matched by neither `select_dtypes` call of lines 48-49, and the code computes
no temporal bucket, so the column appears in no bucket at all. -/
theorem C1_counterexample :
    (⟨"Fecha_Registro", Dtype.datetime64⟩ : Col) ∈
        ([⟨"Fecha_Registro", Dtype.datetime64⟩] : List Col) ∧
      "Fecha_Registro" ∉ numeric_columns [⟨"Fecha_Registro", Dtype.datetime64⟩] ∧
      "Fecha_Registro" ∉ categorical_columns [⟨"Fecha_Registro", Dtype.datetime64⟩] ∧
      "Fecha_Registro" ∉ temporal_columns [⟨"Fecha_Registro", Dtype.datetime64⟩] := by
  decide

/-- C1 amended: classification is total only on the non-datetime dtypes: in a
table with pairwise distinct column names, every column whose dtype is not
datetime appears in exactly one of the Numeric/Categorical buckets and never
in the (always empty) Temporal bucket; datetime columns are unclassified. -/
theorem C1_classification_total_amended (cols : List Col) (c : Col)
    (hnd : (cols.map Col.name).Nodup) (hc : c ∈ cols)
    (hdt : c.dtype ≠ Dtype.datetime64) :
    ((c.name ∈ numeric_columns cols ∧ c.name ∉ categorical_columns cols) ∨
      (c.name ∉ numeric_columns cols ∧ c.name ∈ categorical_columns cols)) ∧
      c.name ∉ temporal_columns cols := by
  refine ⟨?_, by simp [temporal_columns]⟩
  cases hdtc : c.dtype with
  | datetime64 => exact absurd hdtc hdt
  | float64 =>
    have hmem : c.name ∈ numeric_columns cols :=
      (mem_numeric_columns_iff cols c.name).mpr ⟨c, hc, rfl, Or.inl hdtc⟩
    exact Or.inl ⟨hmem, numeric_not_categorical cols hnd c.name hmem⟩
  | int64 =>
    have hmem : c.name ∈ numeric_columns cols :=
      (mem_numeric_columns_iff cols c.name).mpr ⟨c, hc, rfl, Or.inr hdtc⟩
    exact Or.inl ⟨hmem, numeric_not_categorical cols hnd c.name hmem⟩
  | object =>
    have hmem : c.name ∈ categorical_columns cols :=
      (mem_categorical_columns_iff cols c.name).mpr ⟨c, hc, rfl, Or.inl hdtc⟩
    exact Or.inr ⟨fun hn => numeric_not_categorical cols hnd c.name hn hmem, hmem⟩
  | category =>
    have hmem : c.name ∈ categorical_columns cols :=
      (mem_categorical_columns_iff cols c.name).mpr ⟨c, hc, rfl, Or.inr (Or.inl hdtc)⟩
    exact Or.inr ⟨fun hn => numeric_not_categorical cols hnd c.name hn hmem, hmem⟩
  | bool =>
    have hmem : c.name ∈ categorical_columns cols :=
      (mem_categorical_columns_iff cols c.name).mpr ⟨c, hc, rfl, Or.inr (Or.inr hdtc)⟩
    exact Or.inr ⟨fun hn => numeric_not_categorical cols hnd c.name hn hmem, hmem⟩

/-- Witness for the amended C1 on a two-column table. -/
theorem C1_classification_total_amended_witness :
    (((⟨"Capacidad_Instalada_MW", Dtype.float64⟩ : Col).name ∈
        numeric_columns
          [⟨"Capacidad_Instalada_MW", Dtype.float64⟩, ⟨"Tecnologia", Dtype.object⟩] ∧
      (⟨"Capacidad_Instalada_MW", Dtype.float64⟩ : Col).name ∉
        categorical_columns
          [⟨"Capacidad_Instalada_MW", Dtype.float64⟩, ⟨"Tecnologia", Dtype.object⟩]) ∨
      ((⟨"Capacidad_Instalada_MW", Dtype.float64⟩ : Col).name ∉
        numeric_columns
          [⟨"Capacidad_Instalada_MW", Dtype.float64⟩, ⟨"Tecnologia", Dtype.object⟩] ∧
      (⟨"Capacidad_Instalada_MW", Dtype.float64⟩ : Col).name ∈
        categorical_columns
          [⟨"Capacidad_Instalada_MW", Dtype.float64⟩, ⟨"Tecnologia", Dtype.object⟩])) ∧
      (⟨"Capacidad_Instalada_MW", Dtype.float64⟩ : Col).name ∉
        temporal_columns
          [⟨"Capacidad_Instalada_MW", Dtype.float64⟩, ⟨"Tecnologia", Dtype.object⟩] :=
  C1_classification_total_amended
    [⟨"Capacidad_Instalada_MW", Dtype.float64⟩, ⟨"Tecnologia", Dtype.object⟩]
    ⟨"Capacidad_Instalada_MW", Dtype.float64⟩ (by decide) (by decide) (by decide)

/-- C4 counterexample: a column named `Fecha_Entrada_Operacion` holding valid
date strings is loaded with pandas dtype `object`, and lines 48-49 classify
it Categorical, not Temporal: the code never inspects column names and never
attempts date parsing, and its temporal bucket is empty. -/
theorem C4_counterexample :
    "Fecha_Entrada_Operacion" ∉
        temporal_columns [⟨"Fecha_Entrada_Operacion", Dtype.object⟩] ∧
      "Fecha_Entrada_Operacion" ∈
        categorical_columns [⟨"Fecha_Entrada_Operacion", Dtype.object⟩] := by
  decide

/-- C4 amended: the code performs no temporal classification: no naming
convention is consulted, no date parsing is attempted, the Temporal bucket is
always empty, and a column of date strings (pandas dtype object) is
classified Categorical. -/
theorem C4_no_temporal_classification (cols : List Col) (c : Col)
    (hc : c ∈ cols) (hdt : c.dtype = Dtype.object) :
    temporal_columns cols = [] ∧ c.name ∈ categorical_columns cols :=
  ⟨rfl, (mem_categorical_columns_iff cols c.name).mpr ⟨c, hc, rfl, Or.inl hdt⟩⟩

/-- Witness for the amended C4 on the date-string column of Scenario B. -/
theorem C4_no_temporal_classification_witness :
    temporal_columns [⟨"Fecha_Entrada_Operacion", Dtype.object⟩] = [] ∧
      (⟨"Fecha_Entrada_Operacion", Dtype.object⟩ : Col).name ∈
        categorical_columns [⟨"Fecha_Entrada_Operacion", Dtype.object⟩] :=
  C4_no_temporal_classification [⟨"Fecha_Entrada_Operacion", Dtype.object⟩]
    ⟨"Fecha_Entrada_Operacion", Dtype.object⟩ (by decide) rfl

/-- C3: the bivariate chart decision of lines 141-153 follows the decision
table: two numeric axes give a scatter (also when the same numeric column is
chosen for both axes); a categorical x with a numeric y gives a box plot
with the category on the x axis; a numeric x with a categorical y gives a
box plot with the axes swapped and the horizontal flag set, so the category
again lands on the x axis of the drawn chart. -/
theorem C3_chart_decision (cols : List Col) (x y : String)
    (hnd : (cols.map Col.name).Nodup) :
    (x ∈ numeric_columns cols → y ∈ numeric_columns cols →
      selectChart (numeric_columns cols) (categorical_columns cols) x y =
        ChartSpec.scatter x y) ∧
    (x ∈ categorical_columns cols → y ∈ numeric_columns cols →
      selectChart (numeric_columns cols) (categorical_columns cols) x y =
        ChartSpec.box x y false) ∧
    (x ∈ numeric_columns cols → y ∈ categorical_columns cols →
      selectChart (numeric_columns cols) (categorical_columns cols) x y =
        ChartSpec.box y x true) := by
  refine ⟨fun hx hy => ?_, fun hx hy => ?_, fun hx hy => ?_⟩
  · rw [selectChart, if_pos ⟨hx, hy⟩]
  · have hxn : x ∉ numeric_columns cols :=
      fun hn => numeric_not_categorical cols hnd x hn hx
    rw [selectChart, if_neg (fun h => hxn h.1), if_pos (Or.inl ⟨hx, hy⟩), if_pos hx]
  · have hyn : y ∉ numeric_columns cols :=
      fun hn => numeric_not_categorical cols hnd y hn hy
    have hxc : x ∉ categorical_columns cols :=
      fun hcc => numeric_not_categorical cols hnd x hx hcc
    rw [selectChart, if_neg (fun h => hyn h.2), if_pos (Or.inr ⟨hx, hy⟩), if_neg hxc]

/-- Witness for C3: Scenario C, the same numeric column on both axes still
yields a scatter specification. -/
theorem C3_chart_decision_witness :
    selectChart
        (numeric_columns
          [⟨"Capacidad_Instalada_MW", Dtype.float64⟩, ⟨"Tecnologia", Dtype.object⟩])
        (categorical_columns
          [⟨"Capacidad_Instalada_MW", Dtype.float64⟩, ⟨"Tecnologia", Dtype.object⟩])
        "Capacidad_Instalada_MW" "Capacidad_Instalada_MW" =
      ChartSpec.scatter "Capacidad_Instalada_MW" "Capacidad_Instalada_MW" :=
  (C3_chart_decision
      [⟨"Capacidad_Instalada_MW", Dtype.float64⟩, ⟨"Tecnologia", Dtype.object⟩]
      "Capacidad_Instalada_MW" "Capacidad_Instalada_MW" (by decide)).1
    (by decide) (by decide)

/-- C8 counterexample: with both axes categorical the claim says the caller
falls back to a frequency/count chart; in the code the else branch of
lines 155-156 renders no chart at all and shows a warning instead. -/
theorem C8_counterexample :
    rendersChart (selectChart
        (numeric_columns [⟨"Tecnologia", Dtype.object⟩, ⟨"Estado_Actual", Dtype.object⟩])
        (categorical_columns [⟨"Tecnologia", Dtype.object⟩, ⟨"Estado_Actual", Dtype.object⟩])
        "Tecnologia" "Estado_Actual") = false ∧
      selectChart
        (numeric_columns [⟨"Tecnologia", Dtype.object⟩, ⟨"Estado_Actual", Dtype.object⟩])
        (categorical_columns [⟨"Tecnologia", Dtype.object⟩, ⟨"Estado_Actual", Dtype.object⟩])
        "Tecnologia" "Estado_Actual" = ChartSpec.noChart xyWarnMsg := by
  decide

/-- C8 amended: when both selected axes are categorical the code produces no
XY chart; it renders nothing and shows the warning of line 156 (which points
the user to the univariate tab), without itself falling back to a frequency
chart. -/
theorem C8_cat_cat_no_chart (cols : List Col) (x y : String)
    (hnd : (cols.map Col.name).Nodup)
    (hx : x ∈ categorical_columns cols) (hy : y ∈ categorical_columns cols) :
    selectChart (numeric_columns cols) (categorical_columns cols) x y =
        ChartSpec.noChart xyWarnMsg ∧
      rendersChart
        (selectChart (numeric_columns cols) (categorical_columns cols) x y) = false := by
  have hxn : x ∉ numeric_columns cols :=
    fun hn => numeric_not_categorical cols hnd x hn hx
  have hyn : y ∉ numeric_columns cols :=
    fun hn => numeric_not_categorical cols hnd y hn hy
  have hcond : ¬((x ∈ categorical_columns cols ∧ y ∈ numeric_columns cols) ∨
      (x ∈ numeric_columns cols ∧ y ∈ categorical_columns cols)) := by
    rintro (⟨_, h⟩ | ⟨h, _⟩)
    · exact hyn h
    · exact hxn h
  have hsel : selectChart (numeric_columns cols) (categorical_columns cols) x y =
      ChartSpec.noChart xyWarnMsg := by
    rw [selectChart, if_neg (fun h => hxn h.1), if_neg hcond]
  exact ⟨hsel, by rw [hsel]; rfl⟩

/-- Witness for the amended C8 on a two-categorical-column table. -/
theorem C8_cat_cat_no_chart_witness :
    selectChart
        (numeric_columns [⟨"Tecnologia", Dtype.object⟩, ⟨"Operador", Dtype.object⟩])
        (categorical_columns [⟨"Tecnologia", Dtype.object⟩, ⟨"Operador", Dtype.object⟩])
        "Tecnologia" "Operador" = ChartSpec.noChart xyWarnMsg ∧
      rendersChart (selectChart
        (numeric_columns [⟨"Tecnologia", Dtype.object⟩, ⟨"Operador", Dtype.object⟩])
        (categorical_columns [⟨"Tecnologia", Dtype.object⟩, ⟨"Operador", Dtype.object⟩])
        "Tecnologia" "Operador") = false :=
  C8_cat_cat_no_chart [⟨"Tecnologia", Dtype.object⟩, ⟨"Operador", Dtype.object⟩]
    "Tecnologia" "Operador" (by decide) (by decide) (by decide)

theorem sum_counts_pandasUnique {α : Type} [DecidableEq α] (l : List α) :
    ((pandasUnique l).map (fun v => l.count v)).sum = l.length := by
  have hperm : (pandasUnique l).Perm l.dedup :=
    (List.perm_ext_iff_of_nodup (nodup_pandasUnique l) (List.nodup_dedup l)).mpr
      (fun a => by rw [mem_pandasUnique, List.mem_dedup])
  rw [(hperm.map (fun v => l.count v)).sum_eq]
  exact List.sum_map_count_dedup_eq_length l

theorem value_counts_sum (l : List Cell) :
    ((value_counts l).map Prod.snd).sum = (dropNull l).length := by
  rw [value_counts]
  have hperm := List.mergeSort_perm
    ((pandasUnique (dropNull l)).map (fun v => (v, (dropNull l).count v)))
    (fun a b => Nat.ble b.2 a.2)
  rw [(hperm.map Prod.snd).sum_eq, List.map_map]
  exact sum_counts_pandasUnique (dropNull l)

/-- C9: the per-category counts of the univariate frequency chart
(line 106, `value_counts`) sum to the filtered column's row count excluding
null values: pandas `value_counts` drops nulls and counts every remaining
occurrence exactly once. (Tab 2 draws this chart for every non-numeric
column; the identity holds for any column of any table.) -/
theorem C9_freq_counts_sum (df : List Row) (i : Nat) :
    ((value_counts (colValues df i)).map Prod.snd).sum =
      (dropNull (colValues df i)).length :=
  value_counts_sum (colValues df i)
